import Mathlib

/-!
# Recent Tab Switcher FAB — a shallow embedding of the gesture/position core

This file embeds the gesture classifier and position-persistence engine of the
Obsidian "Recent Tab Switcher FAB" plugin (`main.ts`, compiled `main.js`) and
proves the documented properties about it.

Conventions of the embedding:

* JavaScript numbers are modelled as exact rationals (`ℚ`).  The one place
  where IEEE special values matter — division by a zero viewport extent in
  `saveDraggedPosition` — is modelled by the tagged type `JNum` with the exact
  JavaScript rules (`0/0 = NaN`, `x/0 = ±Infinity`, `NaN.toFixed(2) = "NaN"`).
* `Math.sqrt(dx*dx + dy*dy)` is irrational in general, so the distance the code
  computes is passed to the model as an explicit argument `dist`; theorems that
  need it to be the real distance carry the hypothesis
  `dist ^ 2 = dx ^ 2 + dy ^ 2` (with `0 ≤ dist`), and concrete witnesses use
  Pythagorean inputs.
* `parseFloat` is modelled on the grammar fragment it actually meets here
  (optional sign, integer digits, optional fraction; no exponent and no
  leading-whitespace forms), returning `none` for the `NaN` outcome, and
  `parseFloat(...) || 0` is `Option.getD 0`.
* Strings are Lean `String`s; stored positions keep the source shape
  `{ top: "…%", left: "…%" }`.
-/

/-! ## JavaScript number model for the zero-extent division -/

/-- A JavaScript number as produced by the save-path arithmetic: either a
finite (exact rational) value, or one of the IEEE special values. -/
inductive JNum where
  | fin (q : ℚ)
  | nan
  | inf
  | ninf
deriving DecidableEq

/-- JavaScript division `a / b` on (finite) operands: `0/0 = NaN`,
`a/0 = ±Infinity` for `a ≠ 0`. -/
def jsDiv (a b : ℚ) : JNum :=
  if b = 0 then
    if a = 0 then JNum.nan else if a > 0 then JNum.inf else JNum.ninf
  else JNum.fin (a / b)

/-- JavaScript multiplication of a possibly-special number by a finite one. -/
def jsMul (x : JNum) (c : ℚ) : JNum :=
  match x with
  | JNum.fin q => JNum.fin (q * c)
  | JNum.nan => JNum.nan
  | JNum.inf => if c > 0 then JNum.inf else if c < 0 then JNum.ninf else JNum.nan
  | JNum.ninf => if c > 0 then JNum.ninf else if c < 0 then JNum.inf else JNum.nan

/-! ## Digit strings: the `toFixed(2)` / `parseFloat` layer -/

/-- The character for a decimal digit `d < 10` (`'0'` has code 48). -/
def digitCharOf (d : ℕ) : Char := Char.ofNat (48 + d)

/-- The numeric value of a decimal digit character, `none` otherwise. -/
def digitVal? (c : Char) : Option ℕ :=
  if '0' ≤ c ∧ c ≤ '9' then some (c.toNat - '0'.toNat) else none

/-- Longest digit prefix of a character list, with the remainder. -/
def takeDigits : List Char → List ℕ × List Char
  | [] => ([], [])
  | c :: cs =>
    match digitVal? c with
    | some d =>
      let r := takeDigits cs
      (d :: r.1, r.2)
    | none => ([], c :: cs)

/-- Value of a most-significant-first digit list. -/
def natOfDigits (ds : List ℕ) : ℕ := ds.foldl (fun a d => a * 10 + d) 0

/-- Most-significant-first digit list of `n` (with `0 ↦ [0]`). -/
def natDigitChars (n : ℕ) : List ℕ :=
  if n = 0 then [0] else (Nat.digits 10 n).reverse

/-- Decimal rendering of a natural number, as characters. -/
def natDigitsStr (n : ℕ) : List Char := (natDigitChars n).map digitCharOf

/-- `q.toFixed(2)`: round `q` to two decimal places and render with exactly two
fraction digits (sign first for negative values). -/
def toFixed2 (q : ℚ) : List Char :=
  (if round (q * 100) < 0 then ['-'] else []) ++
    natDigitsStr ((round (q * 100)).natAbs / 100) ++
    '.' :: digitCharOf ((round (q * 100)).natAbs / 10 % 10) ::
    [digitCharOf ((round (q * 100)).natAbs % 10)]

/-- `toFixed(2)` lifted to possibly-special numbers: JavaScript renders the
special values as `"NaN"` / `"Infinity"` / `"-Infinity"`. -/
def jsToFixed2 : JNum → List Char
  | JNum.fin q => toFixed2 q
  | JNum.nan => ['N', 'a', 'N']
  | JNum.inf => ['I', 'n', 'f', 'i', 'n', 'i', 't', 'y']
  | JNum.ninf => '-' :: ['I', 'n', 'f', 'i', 'n', 'i', 't', 'y']

/-- Optional leading sign of a numeric literal. `true` means negative. -/
def parseSignChars (cs : List Char) : Bool × List Char :=
  match cs with
  | c :: rest =>
    if c = '-' then (true, rest)
    else if c = '+' then (false, rest)
    else (false, cs)
  | [] => (false, [])

/-- Fraction digits after an optional decimal point. -/
def fracPart (rest : List Char) : List ℕ × List Char :=
  match rest with
  | '.' :: cs2 => takeDigits cs2
  | _ => ([], rest)

/-- `parseFloat` on a character list (sign, digits, optional fraction; the
result is `none` exactly when JavaScript would produce `NaN`). -/
def parseFloatChars (cs : List Char) : Option ℚ :=
  let sr := parseSignChars cs
  let ir := takeDigits sr.2
  let fr := fracPart ir.2
  if ir.1 = [] ∧ fr.1 = [] then none
  else
    some ((if sr.1 then (-1 : ℚ) else 1) *
      ((natOfDigits ir.1 : ℚ) + (natOfDigits fr.1 : ℚ) / (10 : ℚ) ^ fr.1.length))

/-- `parseFloat` on a string. -/
def parseFloatQ (s : String) : Option ℚ := parseFloatChars s.toList

/-- The idiom `parseFloat(s) || 0`: `NaN` (and `0` itself) become `0`. -/
def parseFloatOr0 (s : String) : ℚ := (parseFloatQ s).getD 0

/-! ## Geometry: clamping and percent↔pixel conversion -/

/-- `Math.max` (kernel-computable form of `max` on `ℚ`). -/
def jsMax (a b : ℚ) : ℚ := if a ≤ b then b else a

/-- `Math.min` (kernel-computable form of `min` on `ℚ`). -/
def jsMin (a b : ℚ) : ℚ := if a ≤ b then a else b

/-- `Math.max(0, Math.min(v, extent - size))` — the viewport clamp used for
every rendered pixel coordinate. -/
def clampPx (v size extent : ℚ) : ℚ := jsMax 0 (jsMin v (extent - size))

/-- Pixel coordinate rendered from a stored percentage string: parse the
percentage (malformed ↦ 0), convert to pixels, clamp to the viewport.  This is
the computation `applyPosition` does per axis, and also how
`saveDraggedPosition` re-derives the inactive side's clamped pixels. -/
def renderCoord (percentStr : String) (size extent : ℚ) : ℚ :=
  clampPx (parseFloatOr0 percentStr / 100 * extent) size extent

/-- The percentage string `saveDraggedPosition` persists for a final pixel
coordinate: `((px / extent) * 100).toFixed(2) + '%'`, with JavaScript division
semantics when `extent = 0`. -/
def savedPercentStr (px extent : ℚ) : String :=
  String.mk (jsToFixed2 (jsMul (jsDiv px extent) 100) ++ ['%'])

/-! ## Settings model -/

/-- A stored position: viewport-relative percentage strings. -/
structure Position where
  top : String
  left : String
deriving DecidableEq

/-- The plugin settings record (`RecentTabsPluginSettings`). -/
structure RecentTabsPluginSettings where
  posPortraitLeft : Position
  posPortraitRight : Position
  activeIndexPortrait : Fin 2
  posLandscapeLeft : Position
  posLandscapeRight : Position
  activeIndexLandscape : Fin 2
  fabSize : ℚ
  fabOpacity : ℚ
deriving DecidableEq

/-- `DEFAULT_SETTINGS`. -/
def DEFAULT_SETTINGS : RecentTabsPluginSettings where
  posPortraitLeft := { top := "85%", left := "10%" }
  posPortraitRight := { top := "85%", left := "90%" }
  activeIndexPortrait := 1
  posLandscapeLeft := { top := "80%", left := "5%" }
  posLandscapeRight := { top := "80%", left := "95%" }
  activeIndexLandscape := 1
  fabSize := 50
  fabOpacity := 1

/-! ## Settings load (`loadSettings`) with the legacy-migration branch -/

/-- A persisted settings blob as `loadData()` returns it: any subset of the
current fields plus possibly the legacy flat fields.  (`none` = key absent;
JSON `null`-valued keys are outside the scope of the claims modelled here.) -/
structure StoredBlob where
  posPortraitLeft : Option Position
  posPortraitRight : Option Position
  activeIndexPortrait : Option (Fin 2)
  posLandscapeLeft : Option Position
  posLandscapeRight : Option Position
  activeIndexLandscape : Option (Fin 2)
  fabSize : Option ℚ
  fabOpacity : Option ℚ
  fabPositionLeft : Option Position
  fabPositionRight : Option Position
  activePositionIndex : Option (Fin 2)
deriving DecidableEq

/-- The in-memory settings object after `Object.assign({}, DEFAULT_SETTINGS,
data)`: all current fields populated, and any legacy own-properties of the
blob carried along. -/
structure LoadedSettings where
  core : RecentTabsPluginSettings
  fabPositionLeft : Option Position
  fabPositionRight : Option Position
  activePositionIndex : Option (Fin 2)
deriving DecidableEq

/-- JavaScript truthiness of an object value: every object is truthy. -/
def jsTruthyPos (_p : Position) : Bool := true

/-- `{ ...maybeObject }` for a possibly-absent object: spreading `undefined`
yields `{}`, modelled as an empty-string position. -/
def spreadPos (p? : Option Position) : Position :=
  match p? with
  | some p => p
  | none => { top := "", left := "" }

/-- `loadSettings()`: merge the blob over `DEFAULT_SETTINGS`, then run the
legacy-migration branch under the source's guard
`settings.fabPositionLeft && !settings.posPortraitLeft`. -/
def loadSettings (data : StoredBlob) : LoadedSettings :=
  let merged : LoadedSettings :=
    { core :=
        { posPortraitLeft := data.posPortraitLeft.getD DEFAULT_SETTINGS.posPortraitLeft
          posPortraitRight := data.posPortraitRight.getD DEFAULT_SETTINGS.posPortraitRight
          activeIndexPortrait := data.activeIndexPortrait.getD DEFAULT_SETTINGS.activeIndexPortrait
          posLandscapeLeft := data.posLandscapeLeft.getD DEFAULT_SETTINGS.posLandscapeLeft
          posLandscapeRight := data.posLandscapeRight.getD DEFAULT_SETTINGS.posLandscapeRight
          activeIndexLandscape := data.activeIndexLandscape.getD DEFAULT_SETTINGS.activeIndexLandscape
          fabSize := data.fabSize.getD DEFAULT_SETTINGS.fabSize
          fabOpacity := data.fabOpacity.getD DEFAULT_SETTINGS.fabOpacity }
      fabPositionLeft := data.fabPositionLeft
      fabPositionRight := data.fabPositionRight
      activePositionIndex := data.activePositionIndex }
  if merged.fabPositionLeft.isSome && !(jsTruthyPos merged.core.posPortraitLeft) then
    { core :=
        { merged.core with
          posPortraitLeft := spreadPos merged.fabPositionLeft
          posPortraitRight := spreadPos merged.fabPositionRight
          activeIndexPortrait := merged.activePositionIndex.getD 1
          posLandscapeLeft := DEFAULT_SETTINGS.posLandscapeLeft
          posLandscapeRight := DEFAULT_SETTINGS.posLandscapeRight
          activeIndexLandscape := DEFAULT_SETTINGS.activeIndexLandscape }
      fabPositionLeft := none
      fabPositionRight := none
      activePositionIndex := none }
  else merged

/-! ## Placement engine -/

/-- The active-side index for the current orientation. -/
def activeIndexOf (landscape : Bool) (s : RecentTabsPluginSettings) : Fin 2 :=
  if landscape then s.activeIndexLandscape else s.activeIndexPortrait

/-- The position slot `applyPosition` renders and `saveDraggedPosition`
overwrites. -/
def activePositionOf (landscape : Bool) (s : RecentTabsPluginSettings) : Position :=
  if activeIndexOf landscape s = 0 then
    (if landscape then s.posLandscapeLeft else s.posPortraitLeft)
  else
    (if landscape then s.posLandscapeRight else s.posPortraitRight)

/-- The *other* (inactive) side's position for the current orientation. -/
def otherPositionOf (landscape : Bool) (s : RecentTabsPluginSettings) : Position :=
  if activeIndexOf landscape s = 1 then
    (if landscape then s.posLandscapeLeft else s.posPortraitLeft)
  else
    (if landscape then s.posLandscapeRight else s.posPortraitRight)

/-- Write a new position into the active slot for the current orientation. -/
def updateActivePosition (landscape : Bool) (s : RecentTabsPluginSettings)
    (p : Position) : RecentTabsPluginSettings :=
  if activeIndexOf landscape s = 0 then
    (if landscape then { s with posLandscapeLeft := p } else { s with posPortraitLeft := p })
  else
    (if landscape then { s with posLandscapeRight := p } else { s with posPortraitRight := p })

/-- `applyPosition()`: the `(clampedTop, clampedLeft)` pixel pair rendered for
the active position, on a `W × H` viewport. -/
def applyPosition (landscape : Bool) (W H : ℚ) (s : RecentTabsPluginSettings) : ℚ × ℚ :=
  (renderCoord (activePositionOf landscape s).top s.fabSize H,
   renderCoord (activePositionOf landscape s).left s.fabSize W)

/-- X coordinate of the inactive side's center (its clamped pixels plus half
the button size), as `saveDraggedPosition` computes it. -/
def otherCenterX (other : Position) (size W : ℚ) : ℚ :=
  renderCoord other.left size W + size / 2

/-- Y coordinate of the inactive side's center. -/
def otherCenterY (other : Position) (size H : ℚ) : ℚ :=
  renderCoord other.top size H + size / 2

/-- `dx`: dragged center minus inactive center, X axis. -/
def dragDx (other : Position) (size W fleft : ℚ) : ℚ :=
  (fleft + size / 2) - otherCenterX other size W

/-- `dy`: dragged center minus inactive center, Y axis. -/
def dragDy (other : Position) (size H ftop : ℚ) : ℚ :=
  (ftop + size / 2) - otherCenterY other size H

/-- X coordinate of the center pushed away from the inactive side along the
connecting vector until the separation is `size * 1.2` (`dist` is the code's
`Math.sqrt(dx*dx + dy*dy)`, passed explicitly). -/
def adjustedCenterX (other : Position) (size W fleft dist : ℚ) : ℚ :=
  otherCenterX other size W + dragDx other size W fleft / dist * (size * 1.2)

/-- Y coordinate of the pushed-away center. -/
def adjustedCenterY (other : Position) (size H ftop dist : ℚ) : ℚ :=
  otherCenterY other size H + dragDy other size H ftop / dist * (size * 1.2)

/-- The pixel `(top, left)` pair `saveDraggedPosition` persists: the dragged
final rectangle, pushed away from the inactive side when the centers are
closer than `size * 1.2` (but farther than 1px), then clamped to the
viewport.  Outside the collision branch the dragged pixels are kept as-is. -/
def saveDraggedPositionCore (other : Position) (size W H ftop fleft dist : ℚ) : ℚ × ℚ :=
  if dist < size * 1.2 ∧ dist > 1 then
    (clampPx (adjustedCenterY other size H ftop dist - size / 2) size H,
     clampPx (adjustedCenterX other size W fleft dist - size / 2) size W)
  else (ftop, fleft)

/-- `saveDraggedPosition()`: compute the (possibly collision-adjusted) final
pixels, convert each axis to a percentage string, and store it in the active
slot for the current orientation. -/
def saveDraggedPosition (landscape : Bool) (W H ftop fleft dist : ℚ)
    (s : RecentTabsPluginSettings) : RecentTabsPluginSettings :=
  let adj := saveDraggedPositionCore (otherPositionOf landscape s) s.fabSize W H ftop fleft dist
  updateActivePosition landscape s
    { top := savedPercentStr adj.1 H, left := savedPercentStr adj.2 W }

/-- `handleLongPress()` (called only by the timer): toggle the active index
for the current orientation; positions and the other orientation's index are
not touched.  (The re-render, persistence call, notice and vibration do not
mutate the settings.) -/
def handleLongPress (landscape : Bool) (s : RecentTabsPluginSettings) : RecentTabsPluginSettings :=
  if landscape then
    { s with activeIndexLandscape := if s.activeIndexLandscape = 0 then 1 else 0 }
  else
    { s with activeIndexPortrait := if s.activeIndexPortrait = 0 then 1 else 0 }

/-! ## Gesture classifier state machine -/

/-- The interaction-state fields of the plugin that drive the classifier. -/
structure GestureState where
  isDragging : Bool
  longPressTimer : Bool
  pointerDownHandled : Bool
  dragStartX : ℚ
  dragStartY : ℚ
deriving DecidableEq

/-- The idle state before any pointer-down. -/
def initIdle : GestureState :=
  { isDragging := false, longPressTimer := false, pointerDownHandled := false
    dragStartX := 0, dragStartY := 0 }

/-- `onPointerDown` at client coordinates `(x, y)`: ignored while a session is
open; otherwise capture the start coordinates, clear any stale timer and arm
the 1000ms long-press timer. -/
def onPointerDown (x y : ℚ) (s : GestureState) : GestureState :=
  if s.pointerDownHandled then s
  else
    { isDragging := false, longPressTimer := true, pointerDownHandled := true
      dragStartX := x, dragStartY := y }

/-- `onPointerMove` at client coordinates `(x, y)`: when not yet dragging and
the displacement from the start exceeds the 5px threshold on either axis,
cancel the long-press timer and set the dragging flag.  (The live position
update writes only CSS variables, not classifier state.) -/
def onPointerMove (x y : ℚ) (s : GestureState) : GestureState :=
  if !s.pointerDownHandled then s
  else if !s.isDragging ∧ (|x - s.dragStartX| > 5 ∨ |y - s.dragStartY| > 5) then
    { s with isDragging := true, longPressTimer := false }
  else s

/-- The long-press timer callback firing: only reachable while the timer is
still scheduled; it marks the timer consumed (and, when not dragging, runs
`handleLongPress`, which touches no classifier state). -/
def timerFireStep (s : GestureState) : GestureState :=
  if s.longPressTimer then { s with longPressTimer := false } else s

/-- An event inside one gesture session. -/
inductive GestureEvent where
  | move (x y : ℚ)
  | timerFire
deriving DecidableEq

/-- Process one session event. -/
def stepEvent (s : GestureState) (e : GestureEvent) : GestureState :=
  match e with
  | GestureEvent.move x y => onPointerMove x y s
  | GestureEvent.timerFire => timerFireStep s

/-- The state at pointer-up of a session that began with a pointer-down at
`(x0, y0)` and then saw the events `evs` in order. -/
def runSession (x0 y0 : ℚ) (evs : List GestureEvent) : GestureState :=
  evs.foldl stepEvent (onPointerDown x0 y0 initIdle)

/-- The three possible pointer-up outcomes. -/
inductive UpOutcome where
  | dragSave
  | tap
  | noAction
deriving DecidableEq

/-- `onPointerUp`: early-return (no outcome) when no session is open;
otherwise capture `wasDragging` and `longPressTimerStillPending`, clear the
timer and flags, and fire exactly the outcome the two captured booleans
select. -/
def onPointerUp (s : GestureState) : GestureState × Option UpOutcome :=
  if !s.pointerDownHandled then (s, none)
  else
    ({ s with isDragging := false, longPressTimer := false, pointerDownHandled := false },
     some (if s.isDragging then UpOutcome.dragSave
           else if s.longPressTimer then UpOutcome.tap
           else UpOutcome.noAction))

/-- A move event whose displacement from the session start stays within the
5px drag threshold on both axes. -/
def withinThreshold (x0 y0 : ℚ) : GestureEvent → Prop
  | GestureEvent.move x y => |x - x0| ≤ 5 ∧ |y - y0| ≤ 5
  | GestureEvent.timerFire => False

/-! ## Recency tracker and tap action -/

/-- A workspace leaf as the tracker sees it: an identity, whether its view is
a `MarkdownView`, and its container dimensions. -/
structure Leaf where
  id : ℕ
  isMarkdownView : Bool
  containerWidth : ℚ
  containerHeight : ℚ
deriving DecidableEq

/-- Truncation to the two most recent entries (`slice(0, 2)` when longer). -/
def capTwo (l : List Leaf) : List Leaf := if l.length > 2 then l.take 2 else l

/-- `updateRecentLeaves(currentLeaf)`: ignore non-markdown or zero-area views;
a view already at the front is a no-op; otherwise remove any existing
occurrence, prepend, and truncate to length 2. -/
def updateRecentLeaves (recent : List Leaf) (currentLeaf : Leaf) : List Leaf :=
  if !currentLeaf.isMarkdownView then recent
  else if currentLeaf.containerWidth = 0 ∨ currentLeaf.containerHeight = 0 then recent
  else
    match recent.findIdx? (fun leaf => leaf == currentLeaf) with
    | some 0 => recent
    | some (i + 1) => capTwo (currentLeaf :: recent.eraseIdx (i + 1))
    | none => capTwo (currentLeaf :: recent)

/-- The observable result of `jumpToRecentTab()`. -/
inductive JumpResult where
  | noPrevious
  | switch (target : ℕ)
  | alreadyCurrent
  | noTarget
deriving DecidableEq

/-- `jumpToRecentTab()` over leaf identities: notice when fewer than two leaves
are tracked; otherwise pick entry 1 when the active markdown leaf is absent or
is entry 0, else entry 0, and switch when the target differs from the active
leaf. -/
def jumpToRecentTab (recent : List ℕ) (active : Option ℕ) : JumpResult :=
  if recent.length < 2 then JumpResult.noPrevious
  else
    match (if active = none ∨ active = recent[0]? then recent[1]? else recent[0]?) with
    | some t => if some t ≠ active then JumpResult.switch t else JumpResult.alreadyCurrent
    | none => JumpResult.noTarget

/-! ## Basic lemmas -/

theorem jsMax_eq_max (a b : ℚ) : jsMax a b = max a b := by
  simp [jsMax, max_def]

theorem jsMin_eq_min (a b : ℚ) : jsMin a b = min a b := by
  simp [jsMin, min_def]

theorem clampPx_eq (v size extent : ℚ) :
    clampPx v size extent = max 0 (min v (extent - size)) := by
  simp [clampPx, jsMax_eq_max, jsMin_eq_min]

theorem clampPx_nonneg (v size extent : ℚ) : 0 ≤ clampPx v size extent := by
  rw [clampPx_eq]; exact le_max_left 0 _

theorem clampPx_le (v size extent : ℚ) (h : size ≤ extent) :
    clampPx v size extent ≤ extent - size := by
  rw [clampPx_eq]
  exact max_le (by linarith) (min_le_right _ _)

theorem clampPx_zero (size extent : ℚ) : clampPx 0 size extent = 0 := by
  rw [clampPx_eq]
  rcases le_total 0 (extent - size) with h | h
  · simp [min_eq_left h]
  · simp [min_eq_right h, max_eq_left h]

/-! ## C7: long press toggles only the current orientation -/

theorem flip_ne : ∀ i : Fin 2, (if i = 0 then (1 : Fin 2) else 0) ≠ i := by decide

/-- C7: `handleLongPress` flips the active-side index only for the current
orientation and leaves the other orientation's index and all four saved
position slots unchanged. -/
theorem C7_longPress_isolated (s : RecentTabsPluginSettings) :
    (handleLongPress true s).activeIndexPortrait = s.activeIndexPortrait ∧
    (handleLongPress false s).activeIndexLandscape = s.activeIndexLandscape ∧
    (handleLongPress true s).activeIndexLandscape ≠ s.activeIndexLandscape ∧
    (handleLongPress false s).activeIndexPortrait ≠ s.activeIndexPortrait ∧
    (∀ landscape : Bool,
      (handleLongPress landscape s).posPortraitLeft = s.posPortraitLeft ∧
      (handleLongPress landscape s).posPortraitRight = s.posPortraitRight ∧
      (handleLongPress landscape s).posLandscapeLeft = s.posLandscapeLeft ∧
      (handleLongPress landscape s).posLandscapeRight = s.posLandscapeRight) := by
  refine ⟨rfl, rfl, ?_, ?_, ?_⟩
  · exact flip_ne s.activeIndexLandscape
  · exact flip_ne s.activeIndexPortrait
  · intro landscape
    cases landscape <;> exact ⟨rfl, rfl, rfl, rfl⟩

/-! ## C4: tap-action target selection -/

/-- C4: with exactly two tracked leaves `[A, B]`, the tap action switches to
`B` when the active view is `A` or absent, and to `A` when the active view is
some untracked `C`; with fewer than two tracked leaves it produces no switch
target (only the notice). -/
theorem C4_jump_target (A B C : ℕ) (hAB : A ≠ B) (hCA : C ≠ A) (hCB : C ≠ B) :
    jumpToRecentTab [A, B] (some A) = JumpResult.switch B ∧
    jumpToRecentTab [A, B] none = JumpResult.switch B ∧
    jumpToRecentTab [A, B] (some C) = JumpResult.switch A ∧
    (∀ (l : List ℕ) (a : Option ℕ), l.length < 2 → jumpToRecentTab l a = JumpResult.noPrevious) := by
  refine ⟨?_, ?_, ?_, ?_⟩
  · simp [jumpToRecentTab, hAB, Ne.symm hAB]
  · simp [jumpToRecentTab, hAB, Ne.symm hAB]
  · simp [jumpToRecentTab, hCA, hCB, Ne.symm hCA, Ne.symm hCB]
  · intro l a h
    simp [jumpToRecentTab, h]

theorem C4_jump_target_witness :
    jumpToRecentTab [10, 20] (some 10) = JumpResult.switch 20 ∧
    jumpToRecentTab [10, 20] none = JumpResult.switch 20 ∧
    jumpToRecentTab [10, 20] (some 30) = JumpResult.switch 10 ∧
    jumpToRecentTab [10] none = JumpResult.noPrevious := by
  obtain ⟨h1, h2, h3, h4⟩ := C4_jump_target 10 20 30 (by decide) (by decide) (by decide)
  exact ⟨h1, h2, h3, h4 [10] none (by decide)⟩

/-! ## C5: recency tracker -/

theorem capTwo_length_le (l : List Leaf) : (capTwo l).length ≤ 2 := by
  unfold capTwo
  split
  · simp
  · omega

/-- C5: recording A, B, A yields `[A, B]`; a view already at the front is a
no-op; and the tracked list never grows beyond two entries. -/
theorem C5_recency (A B : Leaf)
    (hA : A.isMarkdownView = true) (hAw : A.containerWidth ≠ 0) (hAh : A.containerHeight ≠ 0)
    (hB : B.isMarkdownView = true) (hBw : B.containerWidth ≠ 0) (hBh : B.containerHeight ≠ 0)
    (hAB : A ≠ B) :
    updateRecentLeaves (updateRecentLeaves (updateRecentLeaves [] A) B) A = [A, B] ∧
    (∀ (l : List Leaf) (v : Leaf), l.head? = some v → updateRecentLeaves l v = l) ∧
    (∀ (l : List Leaf) (v : Leaf), l.length ≤ 2 → (updateRecentLeaves l v).length ≤ 2) := by
  refine ⟨?_, ?_, ?_⟩
  · have h1 : updateRecentLeaves [] A = [A] := by
      simp [updateRecentLeaves, hA, hAw, hAh, capTwo]
    have h2 : updateRecentLeaves [A] B = [B, A] := by
      simp [updateRecentLeaves, hB, hBw, hBh, capTwo, List.findIdx?, hAB, Ne.symm hAB]
    have h3 : updateRecentLeaves [B, A] A = [A, B] := by
      simp [updateRecentLeaves, hA, hAw, hAh, capTwo, List.findIdx?, hAB, Ne.symm hAB, List.eraseIdx]
    rw [h1, h2, h3]
  · intro l v hv
    unfold updateRecentLeaves
    split
    · rfl
    · split
      · rfl
      · cases l with
        | nil => simp at hv
        | cons x t =>
          have hx : x = v := by simpa using hv
          subst hx
          simp [List.findIdx?]
  · intro l v _
    unfold updateRecentLeaves
    split
    · assumption
    · split
      · assumption
      · split
        · assumption
        · exact capTwo_length_le _
        · exact capTwo_length_le _

theorem C5_recency_witness :
    updateRecentLeaves (updateRecentLeaves (updateRecentLeaves [] ⟨0, true, 1, 1⟩) ⟨1, true, 1, 1⟩) ⟨0, true, 1, 1⟩
      = [⟨0, true, 1, 1⟩, ⟨1, true, 1, 1⟩] ∧
    updateRecentLeaves [⟨5, true, 1, 1⟩] ⟨5, true, 1, 1⟩ = [⟨5, true, 1, 1⟩] ∧
    (updateRecentLeaves [⟨5, true, 1, 1⟩, ⟨6, true, 1, 1⟩] ⟨7, true, 1, 1⟩).length ≤ 2 := by
  obtain ⟨h1, h2, h3⟩ := C5_recency ⟨0, true, 1, 1⟩ ⟨1, true, 1, 1⟩ rfl (by norm_num) (by norm_num)
    rfl (by norm_num) (by norm_num) (by simp)
  exact ⟨h1, h2 _ _ rfl, h3 _ _ (by simp)⟩

/-! ## C1: pointer-up fires exactly one outcome -/

theorem stepEvent_pointerDownHandled (s : GestureState) (e : GestureEvent) :
    (stepEvent s e).pointerDownHandled = s.pointerDownHandled := by
  cases e with
  | move x y =>
    show (onPointerMove x y s).pointerDownHandled = s.pointerDownHandled
    unfold onPointerMove
    split_ifs <;> rfl
  | timerFire =>
    show (timerFireStep s).pointerDownHandled = s.pointerDownHandled
    unfold timerFireStep
    split_ifs <;> rfl

theorem foldl_pointerDownHandled (evs : List GestureEvent) (s : GestureState) :
    (evs.foldl stepEvent s).pointerDownHandled = s.pointerDownHandled := by
  induction evs generalizing s with
  | nil => rfl
  | cons e t ih => rw [List.foldl_cons, ih, stepEvent_pointerDownHandled]

theorem runSession_pointerDownHandled (x0 y0 : ℚ) (evs : List GestureEvent) :
    (runSession x0 y0 evs).pointerDownHandled = true := by
  rw [runSession, foldl_pointerDownHandled]
  rfl

/-- C1: after a pointer-down and any interleaving of moves and timer firing,
pointer-up fires exactly one of the three outcomes, determined by the two
booleans captured at entry: drag-save iff the dragging flag is set, else tap
iff the long-press timer is still pending, else no action. -/
theorem C1_pointerUp_exactly_one (x0 y0 : ℚ) (evs : List GestureEvent) :
    (∃ o, (onPointerUp (runSession x0 y0 evs)).2 = some o) ∧
    ((onPointerUp (runSession x0 y0 evs)).2 = some UpOutcome.dragSave ↔
      (runSession x0 y0 evs).isDragging = true) ∧
    ((onPointerUp (runSession x0 y0 evs)).2 = some UpOutcome.tap ↔
      ((runSession x0 y0 evs).isDragging = false ∧
       (runSession x0 y0 evs).longPressTimer = true)) ∧
    ((onPointerUp (runSession x0 y0 evs)).2 = some UpOutcome.noAction ↔
      ((runSession x0 y0 evs).isDragging = false ∧
       (runSession x0 y0 evs).longPressTimer = false)) := by
  have hh := runSession_pointerDownHandled x0 y0 evs
  set s := runSession x0 y0 evs with hs
  cases hd : s.isDragging <;> cases ht : s.longPressTimer <;>
    simp [onPointerUp, hh, hd, ht]

/-! ## C6: sub-threshold moves never start a drag or cancel the timer -/

theorem smallMoves_aux (x0 y0 : ℚ) (evs : List GestureEvent) (s : GestureState)
    (hd : s.isDragging = false) (ht : s.longPressTimer = true)
    (hx : s.dragStartX = x0) (hy : s.dragStartY = y0)
    (h : ∀ e ∈ evs, withinThreshold x0 y0 e) :
    (evs.foldl stepEvent s).isDragging = false ∧
    (evs.foldl stepEvent s).longPressTimer = true := by
  induction evs generalizing s with
  | nil => exact ⟨hd, ht⟩
  | cons e t ih =>
    cases e with
    | timerFire => exact absurd (h _ (List.mem_cons_self _ _)) (by simp [withinThreshold])
    | move x y =>
      obtain ⟨h1, h2⟩ := h _ (List.mem_cons_self _ _)
      have hstep : stepEvent s (GestureEvent.move x y) = s := by
        show onPointerMove x y s = s
        unfold onPointerMove
        split_ifs with hc1 hc2
        · rfl
        · exfalso
          rcases hc2.2 with h5 | h5
          · rw [hx] at h5; linarith [h1, h5]
          · rw [hy] at h5; linarith [h2, h5]
        · rfl
      rw [List.foldl_cons, hstep]
      exact ih s hd ht hx hy (fun e he => h e (List.mem_cons_of_mem _ he))

/-- C6: if every move in the session stays within 5px of the start on both
axes, the classifier never sets the dragging flag and never cancels the
pending long-press timer. -/
theorem C6_small_moves (x0 y0 : ℚ) (evs : List GestureEvent)
    (h : ∀ e ∈ evs, withinThreshold x0 y0 e) :
    (runSession x0 y0 evs).isDragging = false ∧
    (runSession x0 y0 evs).longPressTimer = true := by
  rw [runSession]
  exact smallMoves_aux x0 y0 evs _ rfl rfl rfl rfl h

theorem C6_small_moves_witness :
    (runSession 0 0 [GestureEvent.move 3 (-4), GestureEvent.move 5 5]).isDragging = false ∧
    (runSession 0 0 [GestureEvent.move 3 (-4), GestureEvent.move 5 5]).longPressTimer = true := by
  apply C6_small_moves
  intro e he
  simp at he
  rcases he with h | h <;> subst h <;> constructor <;> norm_num [withinThreshold]

/-! ## Correctness of the digit-string layer -/

theorem digitVal?_digitCharOf : ∀ d : ℕ, d < 10 → digitVal? (digitCharOf d) = some d := by
  decide

theorem digitCharOf_not_sign : ∀ d : ℕ, d < 10 → digitCharOf d ≠ '-' ∧ digitCharOf d ≠ '+' := by
  decide

theorem digitVal?_dot : digitVal? '.' = none := by decide

theorem digitVal?_pct : digitVal? '%' = none := by decide

theorem parseSignChars_of_head (cs : List Char)
    (h : ∀ c, cs.head? = some c → c ≠ '-' ∧ c ≠ '+') : parseSignChars cs = (false, cs) := by
  cases cs with
  | nil => rfl
  | cons c rest =>
    obtain ⟨h1, h2⟩ := h c rfl
    show (if c = '-' then (true, rest)
      else if c = '+' then (false, rest) else (false, c :: rest)) = (false, c :: rest)
    rw [if_neg h1, if_neg h2]

theorem takeDigits_append_digits (ds : List ℕ) (l : List Char)
    (hds : ∀ d ∈ ds, d < 10) (hl : ∀ c, l.head? = some c → digitVal? c = none) :
    takeDigits (ds.map digitCharOf ++ l) = (ds, l) := by
  induction ds with
  | nil =>
    cases l with
    | nil => rfl
    | cons c rest =>
      have := hl c rfl
      simp only [List.map_nil, List.nil_append]
      unfold takeDigits
      rw [this]
  | cons d t ih =>
    have hd : d < 10 := hds d (List.mem_cons_self _ _)
    have ht : ∀ x ∈ t, x < 10 := fun x hx => hds x (List.mem_cons_of_mem _ hx)
    simp only [List.map_cons, List.cons_append]
    unfold takeDigits
    rw [digitVal?_digitCharOf d hd, ih ht]

theorem natOfDigits_append_one (xs : List ℕ) (d : ℕ) :
    natOfDigits (xs ++ [d]) = natOfDigits xs * 10 + d := by
  simp [natOfDigits, List.foldl_append]

theorem natOfDigits_reverse (L : List ℕ) :
    natOfDigits L.reverse = Nat.ofDigits 10 L := by
  induction L with
  | nil => rfl
  | cons d t ih =>
    rw [List.reverse_cons, natOfDigits_append_one, ih, Nat.ofDigits_cons]
    ring

theorem natOfDigits_natDigitChars (n : ℕ) : natOfDigits (natDigitChars n) = n := by
  unfold natDigitChars
  split_ifs with h
  · subst h; rfl
  · rw [natOfDigits_reverse, Nat.ofDigits_digits]

theorem natDigitChars_lt (n : ℕ) : ∀ d ∈ natDigitChars n, d < 10 := by
  unfold natDigitChars
  split_ifs with h
  · intro d hd
    simp at hd
    omega
  · intro d hd
    rw [List.mem_reverse] at hd
    exact Nat.digits_lt_base (by norm_num) hd

theorem natDigitChars_ne_nil (n : ℕ) : natDigitChars n ≠ [] := by
  unfold natDigitChars
  split_ifs with h
  · simp
  · simp [Nat.digits_ne_nil_iff_ne_zero, h]

theorem fracPart_dot (cs : List Char) : fracPart ('.' :: cs) = takeDigits cs := rfl

theorem natOfDigits_two (t o : ℕ) : natOfDigits [t, o] = t * 10 + o := by
  simp [natOfDigits]

/-- Parsing back a `toFixed(2)` rendering of a nonnegative value (with the
trailing `%`) recovers the rounded value exactly. -/
theorem parseFloatChars_toFixed2 (q : ℚ) (hq : 0 ≤ q) :
    parseFloatChars (toFixed2 q ++ ['%']) =
      some (((round (q * 100) : ℤ) : ℚ) / 100) := by
  have hn0 : 0 ≤ round (q * 100) := by
    rw [round_eq]
    exact Int.floor_nonneg.mpr (by positivity)
  set n : ℤ := round (q * 100) with hn
  set m : ℕ := n.natAbs with hmdef
  have hm : (m : ℤ) = n := Int.natAbs_of_nonneg hn0
  obtain ⟨d0, t0, hsplit⟩ := List.exists_cons_of_ne_nil (natDigitChars_ne_nil (m / 100))
  have hfull : toFixed2 q ++ ['%'] =
      (natDigitChars (m / 100)).map digitCharOf ++
        ('.' :: [digitCharOf (m / 10 % 10), digitCharOf (m % 10), '%']) := by
    unfold toFixed2
    rw [if_neg (not_lt.mpr hn0)]
    simp [natDigitsStr, hmdef, hn]
  have hsign : parseSignChars (toFixed2 q ++ ['%']) = (false, toFixed2 q ++ ['%']) := by
    apply parseSignChars_of_head
    intro c hc
    rw [hfull, hsplit] at hc
    simp at hc
    subst hc
    exact digitCharOf_not_sign d0 (natDigitChars_lt (m / 100) d0 (by rw [hsplit]; exact List.mem_cons_self _ _))
  have hint : takeDigits (toFixed2 q ++ ['%']) =
      (natDigitChars (m / 100), '.' :: [digitCharOf (m / 10 % 10), digitCharOf (m % 10), '%']) := by
    rw [hfull]
    apply takeDigits_append_digits
    · exact natDigitChars_lt (m / 100)
    · intro c hc
      simp at hc
      subst hc
      exact digitVal?_dot
  have hfrac : fracPart ('.' :: [digitCharOf (m / 10 % 10), digitCharOf (m % 10), '%']) =
      ([m / 10 % 10, m % 10], ['%']) := by
    rw [fracPart_dot]
    have : [digitCharOf (m / 10 % 10), digitCharOf (m % 10), '%'] =
        [m / 10 % 10, m % 10].map digitCharOf ++ ['%'] := by simp
    rw [this]
    apply takeDigits_append_digits
    · intro d hd
      simp at hd
      rcases hd with h | h <;> subst h <;> omega
    · intro c hc
      simp at hc
      subst hc
      exact digitVal?_pct
  unfold parseFloatChars
  rw [hsign]
  simp only
  rw [hint]
  simp only
  rw [hfrac]
  simp only
  rw [if_neg]
  · congr 1
    rw [natOfDigits_natDigitChars, natOfDigits_two]
    have h2 : (m / 10 % 10) * 10 + m % 10 = m % 100 := by omega
    rw [h2]
    have key : ((m / 100 : ℕ) : ℚ) + ((m % 100 : ℕ) : ℚ) / (10 : ℚ) ^ (2 : ℕ) = (m : ℚ) / 100 := by
      have hnat : m / 100 * 100 + m % 100 = m := by omega
      field_simp
      norm_num
      exact_mod_cast congrArg (fun x : ℕ => (x : ℚ)) hnat
    simp only [List.length_cons, List.length_nil]
    rw [key]
    have hif : (if false = true then (-1 : ℚ) else 1) = 1 := rfl
    rw [hif, one_mul, ← hm]
    push_cast
    ring
  · intro hcontra
    exact natDigitChars_ne_nil (m / 100) hcontra.1

/-! ## C8: drag-save / render round-trip -/

theorem parseFloatOr0_savedPercentStr (px extent : ℚ) (hext : extent ≠ 0)
    (hpos : 0 ≤ px / extent * 100) :
    parseFloatOr0 (savedPercentStr px extent) =
      ((round (px / extent * 100 * 100) : ℤ) : ℚ) / 100 := by
  have h1 : savedPercentStr px extent = String.mk (toFixed2 (px / extent * 100) ++ ['%']) := by
    unfold savedPercentStr jsDiv
    rw [if_neg hext]
    rfl
  rw [h1]
  unfold parseFloatOr0 parseFloatQ
  have h2 : (String.mk (toFixed2 (px / extent * 100) ++ ['%'])).toList =
      toFixed2 (px / extent * 100) ++ ['%'] := rfl
  rw [h2, parseFloatChars_toFixed2 _ hpos]
  rfl

theorem clampPx_dist_le (t y size e : ℚ) (h0 : 0 ≤ y) (h1 : y ≤ e - size) :
    |clampPx t size e - y| ≤ |t - y| := by
  rw [clampPx_eq]
  rcases le_total t (e - size) with ht | ht
  · rw [min_eq_left ht]
    rcases le_total 0 t with h2 | h2
    · rw [max_eq_right h2]
    · rw [max_eq_left h2, abs_of_nonpos (by linarith : (0 : ℚ) - y ≤ 0),
        abs_of_nonpos (by linarith : t - y ≤ 0)]
      linarith
  · rw [min_eq_right ht]
    have h3 : (0 : ℚ) ≤ e - size := le_trans h0 h1
    rw [max_eq_right h3, abs_of_nonneg (by linarith : (0 : ℚ) ≤ e - size - y),
      abs_of_nonneg (by linarith : (0 : ℚ) ≤ t - y)]
    linarith

theorem renderCoord_roundtrip (e size v : ℚ) (he : 0 < e) (h0 : 0 ≤ v) (h1 : v ≤ e - size) :
    |renderCoord (savedPercentStr v e) size e - v| ≤ e / 10000 := by
  have hpos : 0 ≤ v / e * 100 := by positivity
  have hp := parseFloatOr0_savedPercentStr v e (ne_of_gt he) hpos
  unfold renderCoord
  rw [hp]
  set p : ℚ := v / e * 100 with hpdef
  set r : ℚ := ((round (p * 100) : ℤ) : ℚ) / 100 with hrdef
  have hr : |r - p| ≤ 1 / 200 := by
    have h2 : r - p = (((round (p * 100) : ℤ) : ℚ) - p * 100) / 100 := by
      rw [hrdef]; ring
    rw [h2, abs_div, abs_of_pos (by norm_num : (0 : ℚ) < 100)]
    have h3 := abs_sub_round (p * 100)
    rw [abs_sub_comm] at h3
    linarith
  have hv : p / 100 * e = v := by
    rw [hpdef]
    field_simp
    ring
  have h4 : |r / 100 * e - v| ≤ e / 20000 := by
    have h5 : r / 100 * e - v = (r - p) * e / 100 := by rw [← hv]; ring
    rw [h5, abs_div, abs_mul, abs_of_pos he, abs_of_pos (by norm_num : (0 : ℚ) < 100)]
    have h6 := mul_le_mul_of_nonneg_right hr (le_of_lt he)
    linarith
  calc |clampPx (r / 100 * e) size e - v| ≤ |r / 100 * e - v| :=
        clampPx_dist_le (r / 100 * e) v size e h0 h1
    _ ≤ e / 20000 := h4
    _ ≤ e / 10000 := by linarith

/-- C8: a drag saved at in-bounds pixels `(x, y)` (no collision adjustment),
rendered again on the same viewport, lands within 0.01% of each extent. -/
theorem C8_save_render_roundtrip (W H size x y : ℚ) (hW : 0 < W) (hH : 0 < H)
    (hx0 : 0 ≤ x) (hx1 : x ≤ W - size) (hy0 : 0 ≤ y) (hy1 : y ≤ H - size) :
    |renderCoord (savedPercentStr y H) size H - y| ≤ H / 10000 ∧
    |renderCoord (savedPercentStr x W) size W - x| ≤ W / 10000 :=
  ⟨renderCoord_roundtrip H size y hH hy0 hy1, renderCoord_roundtrip W size x hW hx0 hx1⟩

theorem C8_save_render_roundtrip_witness :
    |renderCoord (savedPercentStr 200 1000) 50 1000 - 200| ≤ (1000 : ℚ) / 10000 ∧
    |renderCoord (savedPercentStr 100 1000) 50 1000 - 100| ≤ (1000 : ℚ) / 10000 :=
  C8_save_render_roundtrip 1000 1000 50 100 200 (by norm_num) (by norm_num)
    (by norm_num) (by norm_num) (by norm_num) (by norm_num)

/-! ## Evaluating stored percentage strings -/

theorem parseFloatOr0_of_parts (s : String) (ds : List ℕ) (l : List Char)
    (hs : parseSignChars s.toList = (false, s.toList))
    (hd : takeDigits s.toList = (ds, l))
    (hf : fracPart l = ([], l))
    (hne : ds ≠ []) :
    parseFloatOr0 s = natOfDigits ds := by
  unfold parseFloatOr0 parseFloatQ parseFloatChars
  rw [hs]
  simp only
  rw [hd]
  simp only
  rw [hf]
  simp only
  rw [if_neg (by simp [hne])]
  have h0 : natOfDigits ([] : List ℕ) = 0 := rfl
  simp [h0]

theorem parseFloatOr0_zeroPct : parseFloatOr0 "0%" = 0 := by
  have h := parseFloatOr0_of_parts "0%" [0] ['%'] (by decide) (by decide) (by decide) (by simp)
  rw [h]
  rfl

theorem renderCoord_zeroPct (size e : ℚ) : renderCoord "0%" size e = 0 := by
  unfold renderCoord
  rw [parseFloatOr0_zeroPct]
  norm_num [clampPx_zero]

/-! ## C2: collision avoidance -/

/-- C2 (amended): when the final center is strictly more than 1px but less
than `size * 1.2` from the inactive side's center, the pushed-away center is
at distance exactly `size * 1.2` **before** the final viewport clamp, and the
persisted pixel position always stays within viewport bounds. -/
theorem C2_collision_amended (other : Position) (size W H ftop fleft dist : ℚ)
    (hd2 : dist ^ 2 = dragDx other size W fleft ^ 2 + dragDy other size H ftop ^ 2)
    (h1 : 1 < dist) (h2 : dist < size * 1.2)
    (hsW : size ≤ W) (hsH : size ≤ H) :
    (adjustedCenterX other size W fleft dist - otherCenterX other size W) ^ 2 +
      (adjustedCenterY other size H ftop dist - otherCenterY other size H) ^ 2 =
      (size * 1.2) ^ 2 ∧
    0 ≤ (saveDraggedPositionCore other size W H ftop fleft dist).1 ∧
    (saveDraggedPositionCore other size W H ftop fleft dist).1 ≤ H - size ∧
    0 ≤ (saveDraggedPositionCore other size W H ftop fleft dist).2 ∧
    (saveDraggedPositionCore other size W H ftop fleft dist).2 ≤ W - size := by
  have hdist0 : dist ≠ 0 := ne_of_gt (by linarith)
  constructor
  · unfold adjustedCenterX adjustedCenterY
    field_simp
    ring_nf
    nlinarith [hd2]
  · unfold saveDraggedPositionCore
    rw [if_pos ⟨h2, h1⟩]
    exact ⟨clampPx_nonneg _ _ _, clampPx_le _ _ _ hsH, clampPx_nonneg _ _ _, clampPx_le _ _ _ hsW⟩

theorem C2_collision_amended_witness :
    ((adjustedCenterX ⟨"0%", "0%"⟩ 50 1000 30 50 - otherCenterX ⟨"0%", "0%"⟩ 50 1000) ^ 2 +
      (adjustedCenterY ⟨"0%", "0%"⟩ 50 1000 40 50 - otherCenterY ⟨"0%", "0%"⟩ 50 1000) ^ 2 =
      ((50 : ℚ) * 1.2) ^ 2) ∧
    0 ≤ (saveDraggedPositionCore ⟨"0%", "0%"⟩ 50 1000 1000 40 30 50).1 ∧
    (saveDraggedPositionCore ⟨"0%", "0%"⟩ 50 1000 1000 40 30 50).1 ≤ 1000 - 50 ∧
    0 ≤ (saveDraggedPositionCore ⟨"0%", "0%"⟩ 50 1000 1000 40 30 50).2 ∧
    (saveDraggedPositionCore ⟨"0%", "0%"⟩ 50 1000 1000 40 30 50).2 ≤ 1000 - 50 :=
  C2_collision_amended ⟨"0%", "0%"⟩ 50 1000 1000 40 30 50
    (by unfold dragDx dragDy otherCenterX otherCenterY
        rw [renderCoord_zeroPct]
        norm_num)
    (by norm_num) (by norm_num) (by norm_num) (by norm_num)

/-- C2 counterexample: a drag ending at center-distance exactly 1 from the
inactive side satisfies the claim's premise `0 < d < size * 1.2`, but the
code's guard `distance > 1` fails, so no adjustment is made and the saved
center-distance stays 1 instead of `size * 1.2`. -/
theorem C2_collision_counterexample :
    (0 : ℚ) < 1 ∧ (1 : ℚ) < 50 * 1.2 ∧
    (1 : ℚ) ^ 2 = dragDx ⟨"0%", "0%"⟩ 50 1000 (3/5) ^ 2 + dragDy ⟨"0%", "0%"⟩ 50 1000 (4/5) ^ 2 ∧
    saveDraggedPositionCore ⟨"0%", "0%"⟩ 50 1000 1000 (4/5) (3/5) 1 = (4/5, 3/5) ∧
    renderCoord (savedPercentStr (4/5) 1000) 50 1000 = 4/5 ∧
    renderCoord (savedPercentStr (3/5) 1000) 50 1000 = 3/5 ∧
    (4/5 + 50/2 - otherCenterY ⟨"0%", "0%"⟩ 50 1000) ^ 2 +
      (3/5 + 50/2 - otherCenterX ⟨"0%", "0%"⟩ 50 1000) ^ 2 ≠ ((50 : ℚ) * 1.2) ^ 2 := by
  refine ⟨by norm_num, by norm_num, ?_, ?_, ?_, ?_, ?_⟩
  · unfold dragDx dragDy otherCenterX otherCenterY
    rw [renderCoord_zeroPct]
    norm_num
  · unfold saveDraggedPositionCore
    rw [if_neg (by norm_num)]
  · unfold renderCoord
    rw [parseFloatOr0_savedPercentStr (4/5) 1000 (by norm_num) (by norm_num)]
    have hr : round ((4 : ℚ)/5 / 1000 * 100 * 100) = 8 := by
      norm_num [round_eq]
    rw [hr]
    rw [clampPx_eq]
    norm_num
  · unfold renderCoord
    rw [parseFloatOr0_savedPercentStr (3/5) 1000 (by norm_num) (by norm_num)]
    have hr : round ((3 : ℚ)/5 / 1000 * 100 * 100) = 6 := by
      norm_num [round_eq]
    rw [hr]
    rw [clampPx_eq]
    norm_num
  · unfold otherCenterX otherCenterY
    rw [renderCoord_zeroPct]
    norm_num

/-! ## C9: zero viewport extents -/

theorem renderCoord_zero_extent (str : String) (size : ℚ) : renderCoord str size 0 = 0 := by
  unfold renderCoord
  rw [mul_zero, clampPx_zero]

theorem savedPercentStr_nan : savedPercentStr 0 0 = "NaN%" := by
  unfold savedPercentStr jsDiv
  norm_num
  rfl

theorem savedPercentStr_inf (px : ℚ) (h : 0 < px) : savedPercentStr px 0 = "Infinity%" := by
  unfold savedPercentStr jsDiv
  rw [if_pos rfl, if_neg (ne_of_gt h), if_pos h]
  rfl

theorem savedPercentStr_ninf (px : ℚ) (h : px < 0) : savedPercentStr px 0 = "-Infinity%" := by
  unfold savedPercentStr jsDiv
  rw [if_pos rfl, if_neg (ne_of_lt h), if_neg (not_lt.mpr (le_of_lt h))]
  rfl

theorem parseFloatOr0_tenPct : parseFloatOr0 "10%" = 10 := by
  have h := parseFloatOr0_of_parts "10%" [1, 0] ['%'] (by decide) (by decide) (by decide) (by simp)
  rw [h]
  rfl

/-- C9 (amended): rendering with a zero extent clamps that coordinate to 0 and
never produces a non-finite value, but `saveDraggedPosition`'s
pixel-to-percentage division by a zero extent stores `"NaN%"` (dragged pixel
0) or `"±Infinity%"` (nonzero pixel) instead of a finite percentage. -/
theorem C9_zero_extent_amended :
    (∀ (landscape : Bool) (s : RecentTabsPluginSettings) (W : ℚ),
       (applyPosition landscape W 0 s).1 = 0) ∧
    (∀ (landscape : Bool) (s : RecentTabsPluginSettings) (H : ℚ),
       (applyPosition landscape 0 H s).2 = 0) ∧
    savedPercentStr 0 0 = "NaN%" ∧
    (∀ px : ℚ, 0 < px → savedPercentStr px 0 = "Infinity%") ∧
    (∀ px : ℚ, px < 0 → savedPercentStr px 0 = "-Infinity%") := by
  refine ⟨?_, ?_, savedPercentStr_nan, savedPercentStr_inf, savedPercentStr_ninf⟩
  · intro landscape s W
    exact renderCoord_zero_extent _ _
  · intro landscape s H
    exact renderCoord_zero_extent _ _

theorem C9_zero_extent_amended_witness :
    (applyPosition false 800 0 DEFAULT_SETTINGS).1 = 0 ∧
    savedPercentStr 7 0 = "Infinity%" ∧
    savedPercentStr (-7) 0 = "-Infinity%" := by
  obtain ⟨h1, _h2, _h3, h4, h5⟩ := C9_zero_extent_amended
  exact ⟨h1 false DEFAULT_SETTINGS 800, h4 7 (by norm_num), h5 (-7) (by norm_num)⟩

/-- C9 counterexample: a drag finishing at the (clamped) pixel 0 on a viewport
whose height is 0 makes `saveDraggedPosition` store `"NaN%"` as the persisted
top percentage — the claim that no NaN/Infinity is ever persisted fails.  The
final conjunct checks that `dist = 400` really is the center distance of this
configuration. -/
theorem C9_zero_extent_counterexample :
    (saveDraggedPosition false 1000 0 0 500 400 DEFAULT_SETTINGS).posPortraitRight.top = "NaN%" ∧
    (400 : ℚ) ^ 2 =
      dragDx (otherPositionOf false DEFAULT_SETTINGS) DEFAULT_SETTINGS.fabSize 1000 500 ^ 2 +
      dragDy (otherPositionOf false DEFAULT_SETTINGS) DEFAULT_SETTINGS.fabSize 0 0 ^ 2 := by
  constructor
  · unfold saveDraggedPosition
    have hcore : saveDraggedPositionCore (otherPositionOf false DEFAULT_SETTINGS)
        DEFAULT_SETTINGS.fabSize 1000 0 0 500 400 = (0, 500) := by
      unfold saveDraggedPositionCore
      rw [if_neg]
      show ¬((400 : ℚ) < DEFAULT_SETTINGS.fabSize * 1.2 ∧ (400 : ℚ) > 1)
      unfold DEFAULT_SETTINGS
      norm_num
    rw [hcore]
    show (updateActivePosition false DEFAULT_SETTINGS
      { top := savedPercentStr 0 0, left := savedPercentStr 500 1000 }).posPortraitRight.top = "NaN%"
    rw [savedPercentStr_nan]
    rfl
  · have hother : otherPositionOf false DEFAULT_SETTINGS = { top := "85%", left := "10%" } := rfl
    rw [hother]
    unfold dragDx dragDy otherCenterX otherCenterY
    rw [renderCoord_zero_extent]
    have h10 : renderCoord "10%" DEFAULT_SETTINGS.fabSize 1000 = 100 := by
      unfold renderCoord
      rw [parseFloatOr0_tenPct, clampPx_eq]
      show max 0 (min (10 / 100 * 1000) (1000 - DEFAULT_SETTINGS.fabSize)) = 100
      unfold DEFAULT_SETTINGS
      norm_num
    rw [h10]
    show (400 : ℚ) ^ 2 = (500 + DEFAULT_SETTINGS.fabSize / 2 - (100 + DEFAULT_SETTINGS.fabSize / 2)) ^ 2 +
      (0 + DEFAULT_SETTINGS.fabSize / 2 - (0 + DEFAULT_SETTINGS.fabSize / 2)) ^ 2
    unfold DEFAULT_SETTINGS
    norm_num

/-! ## C10: malformed stored strings degrade to the edge -/

/-- C10: a stored coordinate string that does not parse to a nonzero number is
substituted by 0 percent (`parseFloat(...) || 0`), so rendering puts that
coordinate at the viewport's top/left edge (pixel 0) and the drag-save
collision comparison sees the inactive center at the edge (`size / 2`); no
NaN propagates and nothing throws. -/
theorem C10_malformed_degrades (str : String)
    (h : parseFloatQ str = none ∨ parseFloatQ str = some 0) :
    parseFloatOr0 str = 0 ∧
    (∀ size e : ℚ, renderCoord str size e = 0) ∧
    (∀ size W : ℚ, otherCenterX ⟨"", str⟩ size W = size / 2) ∧
    (∀ size H : ℚ, otherCenterY ⟨str, ""⟩ size H = size / 2) := by
  have h0 : parseFloatOr0 str = 0 := by
    unfold parseFloatOr0
    rcases h with h | h <;> rw [h] <;> rfl
  have hrender : ∀ size e : ℚ, renderCoord str size e = 0 := by
    intro size e
    unfold renderCoord
    rw [h0]
    norm_num [clampPx_zero]
  refine ⟨h0, hrender, ?_, ?_⟩
  · intro size W
    show renderCoord (Position.mk "" str).left size W + size / 2 = size / 2
    have hl : (Position.mk "" str).left = str := rfl
    rw [hl, hrender]
    ring
  · intro size H
    show renderCoord (Position.mk str "").top size H + size / 2 = size / 2
    have ht : (Position.mk str "").top = str := rfl
    rw [ht, hrender]
    ring

theorem C10_malformed_degrades_witness :
    parseFloatOr0 "garbage" = 0 ∧
    renderCoord "garbage" 50 1000 = 0 ∧
    otherCenterX ⟨"", "garbage"⟩ 50 1000 = 50 / 2 ∧
    otherCenterY ⟨"garbage", ""⟩ 50 800 = 50 / 2 := by
  obtain ⟨h0, h1, h2, h3⟩ := C10_malformed_degrades "garbage" (Or.inl (by decide))
  exact ⟨h0, h1 50 1000, h2 50 1000, h3 50 800⟩

/-! ## C3: the legacy-settings migration never runs -/

/-- A blob holding only the legacy flat fields (`fabPositionLeft`,
`fabPositionRight`, `activePositionIndex`) and none of the
orientation-specific fields. -/
def legacyOnlyBlob (pl pr : Position) (idx : Fin 2) : StoredBlob where
  posPortraitLeft := none
  posPortraitRight := none
  activeIndexPortrait := none
  posLandscapeLeft := none
  posLandscapeRight := none
  activeIndexLandscape := none
  fabSize := none
  fabOpacity := none
  fabPositionLeft := some pl
  fabPositionRight := some pr
  activePositionIndex := some idx

/-- C3 (code bug): for a legacy-only blob the migration guard
`settings.fabPositionLeft && !settings.posPortraitLeft` is never satisfied —
`Object.assign` merges `DEFAULT_SETTINGS` first, so `posPortraitLeft` is
always a (truthy) object.  The legacy fields therefore survive the load
un-deleted and their values are ignored: the orientation-specific fields are
the defaults, not the migrated legacy position/index. -/
theorem C3_migration_never_runs (pl pr : Position) (idx : Fin 2) :
    (loadSettings (legacyOnlyBlob pl pr idx)).fabPositionLeft = some pl ∧
    (loadSettings (legacyOnlyBlob pl pr idx)).fabPositionRight = some pr ∧
    (loadSettings (legacyOnlyBlob pl pr idx)).activePositionIndex = some idx ∧
    (loadSettings (legacyOnlyBlob pl pr idx)).core = DEFAULT_SETTINGS := by
  unfold loadSettings legacyOnlyBlob jsTruthyPos
  simp
